import Mathlib

/-
Formal model of the libdrop transfer client (drop-transfer ws client v5 and
v2), the drop-config configuration, and the norddrop C FFI layer, together
with theorems checking the specification's claims against this code.

Conventions:
* `FileId` is an abstract file identifier with decidable equality (`Nat`).
* Rust `Duration`s are natural numbers of nanoseconds; `saturating_sub` is
  `Nat` truncated subtraction and `Duration / 2` is `Nat` division.
* The transfer manager and the per-file event sink (`FileEventTx`) are not
  among the source files here; they are modelled from the spec (sections 4.B
  and 4.F) where the doc comments say so.
* Task concurrency is resolved by an adversarial `Oracle`: at each handler
  step it decides whether the file's upload job `is_finished()` returns true
  and whether `start_upload` succeeds.  Proving a property for every oracle
  covers every schedule of job completion and spawn failure.
-/

namespace Libdrop

abbrev FileId := Nat

/-- Pointwise update of a map represented as a function `FileId → α`. -/
def upd {α : Type} (m : FileId → α) (x : FileId) (v : α) : FileId → α :=
  fun y => if y = x then v else m y

theorem upd_self {α : Type} (m : FileId → α) (x : FileId) (v : α) : upd m x v x = v := by
  simp [upd]

theorem upd_ne {α : Type} (m : FileId → α) (x : FileId) (v : α) (y : FileId) (h : y ≠ x) :
    upd m x v y = m y := by
  simp [upd, h]

/- ---------------------------------------------------------------------
   drop-config/src/lib.rs
--------------------------------------------------------------------- -/

/-- Rust `std::time::Duration`, modelled as nanoseconds. -/
abbrev Duration := Nat

def Duration.fromSecs (s : Nat) : Duration := s * 1000000000

/-- `drop_config::DropConfig` (drop-config/src/lib.rs lines 10-17). -/
structure DropConfig where
  dir_depth_limit : Nat
  transfer_file_limit : Nat
  connection_max_retry_interval : Duration
  transfer_idle_lifetime : Duration
  storage_path : String
  max_uploads_in_flight : Nat

/-- `impl Default for DropConfig` (drop-config/src/lib.rs lines 19-30). -/
def DropConfig.default : DropConfig :=
  { dir_depth_limit := 5
    transfer_file_limit := 1000
    connection_max_retry_interval := Duration.fromSecs 10
    transfer_idle_lifetime := Duration.fromSecs 60
    storage_path := "libdrop.sqlite"
    max_uploads_in_flight := 4 }

/-- `DropConfig::ping_interval` (drop-config/src/lib.rs lines 41-43):
`self.transfer_idle_lifetime / 2`. -/
def DropConfig.ping_interval (c : DropConfig) : Duration :=
  c.transfer_idle_lifetime / 2

namespace Norddrop

/-- `norddrop::config::Config` (norddrop/src/config.rs lines 1-10). -/
structure Config where
  dir_depth_limit : Nat
  transfer_file_limit : Nat
  moose_event_path : String
  moose_prod : Bool
  storage_path : String
  checksum_events_size_threshold : Option Nat
  connection_retries : Option Nat

/-- `Config::default_connection_retries` (norddrop/src/config.rs lines 13-15). -/
def Config.default_connection_retries : Nat := 5

/-- The core `drop_config::DropConfig` as populated by the `From<Config>`
conversion in norddrop/src/config.rs (the matching drop-config revision is not
among the sources here; the fields are exactly the ones that conversion
assigns). -/
structure CoreDropConfig where
  dir_depth_limit : Nat
  transfer_file_limit : Nat
  storage_path : String
  checksum_events_size_threshold : Option Nat
  connection_retries : Nat

/-- `impl From<Config> for drop_config::Config` (norddrop/src/config.rs
lines 18-45).  `connection_retries.unwrap_or(Config::default_connection_retries())`
is `Option.getD`. -/
def Config.toCore (c : Config) : CoreDropConfig :=
  { dir_depth_limit := c.dir_depth_limit
    transfer_file_limit := c.transfer_file_limit
    storage_path := c.storage_path
    checksum_events_size_threshold := c.checksum_events_size_threshold
    connection_retries := c.connection_retries.getD Config.default_connection_retries }

end Norddrop

/- ---------------------------------------------------------------------
   drop-transfer/src/ws/client/v5.rs : the client handler loop
--------------------------------------------------------------------- -/

namespace V5

/-- `crate::manager::FileTerminalState` as used by v5.rs. -/
inductive FileTerminalState
  | Rejected
  | Completed
  | Failed
deriving DecidableEq, Repr

/-- Application events emitted by the v5 client loop (`crate::Event` variants
that reach `state.event_tx`, either through the per-file sink or directly). -/
inductive Event
  | FileUploadProgress (file : FileId) (transfered : Nat)
  | FileUploadCancelled (file : FileId) (by_peer : Bool)
  | FileUploadSuccess (file : FileId)
  | FileUploadRejected (file : FileId) (by_peer : Bool)
  | FileUploadFailed (file : FileId)
deriving DecidableEq, Repr

/-- Messages the client sends back (`prot::ClientMsg`; the variants the
modelled handlers produce: `Error` from `on_start` and `on_checksum`,
`ReportChsum` from `on_checksum` — its checksum bytes are abstracted away —
and `Chunk` from the uploader). -/
inductive ClientMsg
  | Error (file : Option FileId) (msg : String)
  | Chunk (file : FileId) (data : List Nat)
  | ReportChsum (file : FileId) (limit : Nat)
deriving DecidableEq, Repr

/-- Inbound `prot::ServerMsg` variants dispatched by `on_text_msg`
(v5.rs lines 392-421). -/
inductive ServerMsg
  | Progress (file : FileId) (bytes_transfered : Nat)
  | Done (file : FileId)
  | Error (file : Option FileId) (msg : String)
  | ReqChsum (file : FileId) (limit : Nat)
  | Start (file : FileId) (offset : Nat)
  | Cancel (file : FileId)
  | Reject (file : FileId)
deriving DecidableEq, Repr

/-- Adversarial resolution of the concurrent facts a handler step queries:
whether `task.job.is_finished()` is true at that moment, whether
`start_upload` succeeds, and whether the checksum computation spawned by
`on_checksum` succeeds. -/
structure Oracle where
  job_finished : Bool
  start_ok : Bool
  chsum_ok : Bool
deriving DecidableEq, Repr

/-- State of `HandlerLoop` (v5.rs lines 32-40) plus the two collaborators it
drives: `tasks`/`done` are the loop's own fields; `mgr` is the transfer
manager's per-file terminal latch and `sink` the per-file event sink's
terminal flag, both modelled from the spec (sections 4.F and 4.B). -/
structure LoopState where
  tasks : FileId → Bool
  done : FileId → Bool
  mgr : FileId → Option FileTerminalState
  sink : FileId → Bool

/-- Fresh loop for a fresh transfer (`upgrade`, v5.rs lines 82-98). -/
def initialLoop : LoopState :=
  { tasks := fun _ => false
    done := fun _ => false
    mgr := fun _ => none
    sink := fun _ => false }

/-- Result of one handler step: new state, application events emitted, wire
messages sent, and upload jobs aborted. -/
structure StepOut where
  state : LoopState
  events : List Event
  sent : List ClientMsg
  aborted : List FileId

/-- Modelled from the spec: `TransferManager::outgoing_terminal_recv`
(section 4.F, invariant M1).  The first terminal call for a file records the
state and returns `Ok(Some(sink))` (here `true`); later calls return
`Ok(None)` (here `false`) and change nothing. -/
def outgoing_terminal_recv (mgr : FileId → Option FileTerminalState) (f : FileId)
    (ts : FileTerminalState) : (FileId → Option FileTerminalState) × Bool :=
  match mgr f with
  | none => (upd mgr f (some ts), true)
  | some _ => (mgr, false)

/-- Modelled from the spec: `TransferManager::outgoing_ensure_file_not_terminated`
(section 4.F) succeeds exactly when the file has no recorded terminal state. -/
def outgoing_ensure_not_terminated (mgr : FileId → Option FileTerminalState)
    (f : FileId) : Bool :=
  (mgr f).isNone

/-- Modelled from the spec: `TransferManager::outgoing_failure_post`
(section 4.F) marks a failure that did not originate from the peer: it
records the `Failed` terminal state for the file (the manager's
terminal-state monotonicity keeps an already recorded terminal state), and
returns the file's event sink for the caller to emit on (`Ok(res)`). -/
def outgoing_failure_post (mgr : FileId → Option FileTerminalState) (f : FileId) :
    FileId → Option FileTerminalState :=
  match mgr f with
  | none => upd mgr f (some FileTerminalState.Failed)
  | some _ => mgr

/-- Modelled from the spec: a terminal emission on the per-file event sink
(`FileEventTx`, section 4.B, invariant B1).  After the sink has gone terminal
subsequent calls are dropped. -/
def sinkEmit (sink : FileId → Bool) (f : FileId) (e : Event) :
    (FileId → Bool) × List Event :=
  if sink f then (sink, []) else (upd sink f true, [e])

/-- Modelled from the spec: `FileEventTx::stop_silent` (section 4.B) marks the
sink terminal without emitting externally. -/
def sinkStopSilent (sink : FileId → Bool) (f : FileId) : FileId → Bool :=
  upd sink f true

/-- `HandlerLoop::on_cancel` (v5.rs lines 106-113): remove the task entry; if
the job was not finished, abort it and emit `cancelled(by_peer)` through the
sink. -/
def on_cancel (s : LoopState) (f : FileId) (by_peer : Bool) (o : Oracle) : StepOut :=
  if s.tasks f then
    let s1 := { s with tasks := upd s.tasks f false }
    if o.job_finished then ⟨s1, [], [], []⟩
    else
      let se := sinkEmit s1.sink f (Event.FileUploadCancelled f by_peer)
      ⟨{ s1 with sink := se.1 }, se.2, [], [f]⟩
  else ⟨s, [], [], []⟩

/-- `HandlerLoop::stop_task` (v5.rs lines 134-147): remove the task entry; if
the job was not finished, abort it and `stop_silent` the sink.  Returns the
new state and the aborted jobs. -/
def stop_task (s : LoopState) (f : FileId) (fin : Bool) : LoopState × List FileId :=
  if s.tasks f then
    let s1 := { s with tasks := upd s.tasks f false }
    if fin then (s1, [])
    else ({ s1 with sink := sinkStopSilent s1.sink f }, [f])
  else (s, [])

/-- `HandlerLoop::on_reject` (v5.rs lines 115-132): route through the manager
latch; on `Ok(Some(res))` emit `rejected(true)` on the returned sink; on
`Ok(None)` emit nothing; then `stop_task`. -/
def on_reject (s : LoopState) (f : FileId) (o : Oracle) : StepOut :=
  let mr := outgoing_terminal_recv s.mgr f FileTerminalState.Rejected
  let s1 := { s with mgr := mr.1 }
  let se := if mr.2 then sinkEmit s1.sink f (Event.FileUploadRejected f true)
            else (s1.sink, [])
  let s2 := { s1 with sink := se.1 }
  let st := stop_task s2 f o.job_finished
  ⟨st.1, se.2, [], st.2⟩

/-- `HandlerLoop::on_progress` (v5.rs lines 149-153): forward progress through
the sink of a live task; dropped by the sink when already terminal. -/
def on_progress (s : LoopState) (f : FileId) (n : Nat) : StepOut :=
  if s.tasks f && !(s.sink f) then ⟨s, [Event.FileUploadProgress f n], [], []⟩
  else ⟨s, [], [], []⟩

/-- `HandlerLoop::on_done` (v5.rs lines 155-178): record `Completed` in the
manager (the returned sink is ignored by the code); if a task entry exists,
remove it and emit `success()` through the sink; otherwise, if the file is not
in the `done` set, send `FileUploadSuccess` directly on `event_tx`; finally
insert the file into `done`. -/
def on_done (s : LoopState) (f : FileId) : StepOut :=
  let mr := outgoing_terminal_recv s.mgr f FileTerminalState.Completed
  let s1 := { s with mgr := mr.1 }
  if s1.tasks f then
    let s2 := { s1 with tasks := upd s1.tasks f false }
    let se := sinkEmit s2.sink f (Event.FileUploadSuccess f)
    ⟨{ s2 with sink := se.1, done := upd s2.done f true }, se.2, [], []⟩
  else if s1.done f then
    ⟨{ s1 with done := upd s1.done f true }, [], [], []⟩
  else
    ⟨{ s1 with done := upd s1.done f true }, [Event.FileUploadSuccess f], [], []⟩

/-- `HandlerLoop::on_checksum` (v5.rs lines 180-241): the handler spawns a
job; the job's effect is modelled at the dispatch point (the schedule in
which it runs to completion before the next inbound message).  The job first
calls `outgoing_ensure_file_not_terminated`, then computes the checksum
(`o.chsum_ok` decides whether that succeeds).  On success it queues
`ReportChsum`; on any failure it calls `outgoing_failure_post` — recording
the `Failed` terminal state in the manager while the loop's task entry, if
any, stays live — emits `failed` through the returned sink, and queues
`Error{Some(file), msg}`. -/
def on_checksum (s : LoopState) (f : FileId) (limit : Nat) (o : Oracle) : StepOut :=
  if outgoing_ensure_not_terminated s.mgr f && o.chsum_ok then
    ⟨s, [], [ClientMsg.ReportChsum f limit], []⟩
  else
    let s1 := { s with mgr := outgoing_failure_post s.mgr f }
    let se := sinkEmit s1.sink f (Event.FileUploadFailed f)
    ⟨{ s1 with sink := se.1 }, se.2,
      [ClientMsg.Error (some f) ("failed to compute checksum")], []⟩

/-- `HandlerLoop::on_start` (v5.rs lines 243-311): ensure the file is not
terminated; with an occupied unfinished task entry bail with
`Transfer already in progress`; otherwise (re)spawn the upload task and remove
the file from `done`; any failure is reported as `Error{file, msg}` on the
socket.  The strings stand for `err.to_string()` on each failure path (the
manager's error text is not among the sources; only its distinctness
matters). -/
def on_start (s : LoopState) (f : FileId) (offset : Nat) (o : Oracle) : StepOut :=
  if outgoing_ensure_not_terminated s.mgr f then
    if s.tasks f then
      if o.job_finished then
        if o.start_ok then
          ⟨{ s with done := upd s.done f false }, [], [], []⟩
        else
          ⟨s, [], [ClientMsg.Error (some f) ("failed to start upload")], []⟩
      else
        ⟨s, [], [ClientMsg.Error (some f) ("Transfer already in progress")], []⟩
    else
      if o.start_ok then
        ⟨{ s with tasks := upd s.tasks f true, done := upd s.done f false }, [], [], []⟩
      else
        ⟨s, [], [ClientMsg.Error (some f) ("failed to start upload")], []⟩
  else
    ⟨s, [], [ClientMsg.Error (some f) ("file is already terminated")], []⟩

/-- `HandlerLoop::on_error` (v5.rs lines 313-341): with `file = None` the
handler only logs; with `file = Some` it routes `Failed` through the manager
latch, emits `failed` on `Ok(Some)`, and `stop_task`s the file. -/
def on_error (s : LoopState) (file : Option FileId) (o : Oracle) : StepOut :=
  match file with
  | none => ⟨s, [], [], []⟩
  | some f =>
    let mr := outgoing_terminal_recv s.mgr f FileTerminalState.Failed
    let s1 := { s with mgr := mr.1 }
    let se := if mr.2 then sinkEmit s1.sink f (Event.FileUploadFailed f)
              else (s1.sink, [])
    let s2 := { s1 with sink := se.1 }
    let st := stop_task s2 f o.job_finished
    ⟨st.1, se.2, [], st.2⟩

/-- `HandlerLoop::on_text_msg` dispatch (v5.rs lines 392-421). -/
def step (s : LoopState) (m : ServerMsg) (o : Oracle) : StepOut :=
  match m with
  | ServerMsg.Progress f n => on_progress s f n
  | ServerMsg.Done f => on_done s f
  | ServerMsg.Error file _ => on_error s file o
  | ServerMsg.ReqChsum f limit => on_checksum s f limit o
  | ServerMsg.Start f off => on_start s f off o
  | ServerMsg.Cancel f => on_cancel s f true o
  | ServerMsg.Reject f => on_reject s f o

/-- Run the loop over a sequence of inbound messages with their oracles. -/
def run : LoopState → List (ServerMsg × Oracle) → LoopState
  | s, [] => s
  | s, (m, o) :: rest => run (step s m o).state rest

/-- All application events emitted while running a message sequence. -/
def runEvents : LoopState → List (ServerMsg × Oracle) → List Event
  | _, [] => []
  | s, (m, o) :: rest => (step s m o).events ++ runEvents (step s m o).state rest

/-- Whether an event is a terminal event for file `f` (cancelled, success,
rejected or failed; progress is not terminal). -/
def Event.isTerminalFor : Event → FileId → Bool
  | Event.FileUploadCancelled g _, f => g == f
  | Event.FileUploadSuccess g, f => g == f
  | Event.FileUploadRejected g _, f => g == f
  | Event.FileUploadFailed g, f => g == f
  | Event.FileUploadProgress _ _, _ => false

/-- Number of terminal events for file `f` in an event trace. -/
def terminalCount (es : List Event) (f : FileId) : Nat :=
  (es.filter (fun e => e.isTerminalFor f)).length

end V5

/- ---------------------------------------------------------------------
   drop-transfer/src/ws/client/v2.rs : the pieces the claims touch
--------------------------------------------------------------------- -/

namespace V2

/-- Events the v2 `on_error` handler can emit (`crate::Event` variants). -/
inductive Event
  | FileUploadFailed (file : FileId)
deriving DecidableEq, Repr

/-- Messages the v2 uploader sends (`v2::ClientMsg` / raw chunk frames). -/
inductive ClientMsg
  | Chunk (file : FileId) (data : List Nat)
  | Error (file : Option FileId) (msg : String)
deriving DecidableEq, Repr

/-- `HandlerLoop::on_error` (v2.rs lines 174-197): with `file = None` only a
log line; with `file = Some` remove the task and, if the job was not
finished, abort it and emit `FileUploadFailed` through the task's event
stream.  Returns (new task map, events, aborted jobs). -/
def on_error (tasks : FileId → Bool) (file : Option FileId) (fin : Bool) :
    (FileId → Bool) × List Event × List FileId :=
  match file with
  | none => (tasks, [], [])
  | some f =>
    if tasks f then
      let t1 := upd tasks f false
      if fin then (t1, [], []) else (t1, [Event.FileUploadFailed f], [f])
    else (tasks, [], [])

end V2

/- ---------------------------------------------------------------------
   Uploader::chunk (v5.rs lines 459-473, v2.rs lines 336-348)
--------------------------------------------------------------------- -/

/-- `crate::Error` variants relevant to the uploader. -/
inductive CrateError
  | Canceled
  | BadTransfer
  | BadTransferState (msg : String)
deriving DecidableEq, Repr

/-- v5 `Uploader::chunk`: build a `prot::Chunk{file, data}` message and send
it on the outbound queue; a closed queue (`send` returning `Err`) is mapped to
`crate::Error::Canceled`.  Output: the result, the messages actually queued,
and the application events emitted (none on any path). -/
def Uploader.chunk_v5 (queue_open : Bool) (file : FileId) (data : List Nat) :
    Except CrateError Unit × List V5.ClientMsg × List V5.Event :=
  if queue_open then (Except.ok (), [V5.ClientMsg.Chunk file data], [])
  else (Except.error CrateError.Canceled, [], [])

/-- v2 `Uploader::chunk`: identical shape over the v2 message type. -/
def Uploader.chunk_v2 (queue_open : Bool) (file : FileId) (data : List Nat) :
    Except CrateError Unit × List V2.ClientMsg × List V2.Event :=
  if queue_open then (Except.ok (), [V2.ClientMsg.Chunk file data], [])
  else (Except.error CrateError.Canceled, [], [])

/- ---------------------------------------------------------------------
   recv_timeout (v5.rs lines 433-440, v2.rs lines 313-324)
--------------------------------------------------------------------- -/

/-- v5 `HandlerLoop::recv_timeout`:
`Some(config.transfer_idle_lifetime.saturating_sub(last_recv_elapsed))`. -/
def recv_timeout_v5 (cfg : DropConfig) (last_recv_elapsed : Duration) : Option Duration :=
  some (cfg.transfer_idle_lifetime - last_recv_elapsed)

/-- v2 `HandlerLoop::<PING>::recv_timeout`: the same saturating difference
when the `PING` const generic is true, `None` otherwise. -/
def recv_timeout_v2 (ping : Bool) (cfg : DropConfig) (last_recv_elapsed : Duration) :
    Option Duration :=
  if ping then some (cfg.transfer_idle_lifetime - last_recv_elapsed) else none

/- ---------------------------------------------------------------------
   norddrop/src/ffi/mod.rs : the C FFI layer
--------------------------------------------------------------------- -/

namespace Norddrop

/-- `enum norddrop_result` (the variants this layer produces). -/
inductive norddrop_result
  | NORDDROP_RES_OK
  | NORDDROP_RES_ERROR
  | NORDDROP_RES_INVALID_STRING
  | NORDDROP_RES_BAD_INPUT
  | NORDDROP_RES_INVALID_PRIVKEY
deriving DecidableEq, Repr

/-- Outcome of running a piece of Rust code that may panic: either a value or
an unwinding panic.  `panic::catch_unwind` turns `panicked` back into a
value; code without a catch propagates it. -/
inductive Panicky (α : Type)
  | ok (val : α)
  | panicked
deriving DecidableEq, Repr

/-- Transfer ids as parsed from strings (`xfid.parse()`); modelled opaquely. -/
abbrev Uuid := String

/-- C string pointers: `none` is the null pointer, `some s` a valid
NUL-terminated UTF-8 string (UTF-8 validity of non-null pointers is
abstracted; `CStr::to_str` failures take the same early-return shape as the
null checks). -/
abbrev CStrPtr := Option String

/-- Body of `norddrop_new_transfer` (ffi/mod.rs lines 67-98) inside the
`catch_unwind`: null checks on `peer` and `descriptors`, then the device call
`dev.new_transfer` (`op`, which may itself panic).  The `Bool` records
whether the device operation was invoked. -/
def new_transfer_body (op : String → String → Panicky (Except norddrop_result String))
    (peer descriptors : CStrPtr) : Panicky ((Except norddrop_result String) × Bool) :=
  match peer with
  | none => Panicky.ok (Except.error norddrop_result.NORDDROP_RES_INVALID_STRING, false)
  | some p =>
    match descriptors with
    | none => Panicky.ok (Except.error norddrop_result.NORDDROP_RES_INVALID_STRING, false)
    | some d =>
      match op p d with
      | Panicky.panicked => Panicky.panicked
      | Panicky.ok r => Panicky.ok (r, true)

/-- `norddrop_new_transfer`: `catch_unwind` around the body; `Ok(Ok(xfid))`
becomes a heap string, everything else (including a caught panic) the null
pointer.  Output: (returned string pointer, device operation invoked). -/
def norddrop_new_transfer (op : String → String → Panicky (Except norddrop_result String))
    (peer descriptors : CStrPtr) : Option String × Bool :=
  match new_transfer_body op peer descriptors with
  | Panicky.ok (Except.ok xfid, i) => (some xfid, i)
  | Panicky.ok (Except.error _, i) => (none, i)
  | Panicky.panicked => (none, true)

/-- Body of `norddrop_download` (ffi/mod.rs lines 117-169) inside the
`catch_unwind`: null checks on `xfid`, `fid`, `dst` in that order, then the
two parses (`BAD_INPUT` on failure), then `dev.download` (`op`). -/
def download_body (parse_uuid : String → Option Uuid) (parse_fid : String → Option String)
    (op : Uuid → String → String → Panicky norddrop_result)
    (xfid fid dst : CStrPtr) : Panicky (norddrop_result × Bool) :=
  match xfid with
  | none => Panicky.ok (norddrop_result.NORDDROP_RES_INVALID_STRING, false)
  | some sx =>
    match fid with
    | none => Panicky.ok (norddrop_result.NORDDROP_RES_INVALID_STRING, false)
    | some sf =>
      match dst with
      | none => Panicky.ok (norddrop_result.NORDDROP_RES_INVALID_STRING, false)
      | some sd =>
        match parse_uuid sx with
        | none => Panicky.ok (norddrop_result.NORDDROP_RES_BAD_INPUT, false)
        | some u =>
          match parse_fid sf with
          | none => Panicky.ok (norddrop_result.NORDDROP_RES_BAD_INPUT, false)
          | some f =>
            match op u f sd with
            | Panicky.panicked => Panicky.panicked
            | Panicky.ok r => Panicky.ok (r, true)

/-- `norddrop_download`: `result.unwrap_or(NORDDROP_RES_ERROR)` over the
caught body. -/
def norddrop_download (parse_uuid : String → Option Uuid) (parse_fid : String → Option String)
    (op : Uuid → String → String → Panicky norddrop_result)
    (xfid fid dst : CStrPtr) : norddrop_result × Bool :=
  match download_body parse_uuid parse_fid op xfid fid dst with
  | Panicky.ok r => r
  | Panicky.panicked => (norddrop_result.NORDDROP_RES_ERROR, true)

/-- `norddrop_cancel_transfer` (ffi/mod.rs lines 177-203): null check on
`xfid` (before the lock), parse (`BAD_INPUT` on failure), then
`dev.cancel_transfer`; `catch_unwind` maps a panic to `NORDDROP_RES_ERROR`. -/
def norddrop_cancel_transfer (parse_uuid : String → Option Uuid)
    (op : Uuid → Panicky norddrop_result) (xfid : CStrPtr) : norddrop_result × Bool :=
  match xfid with
  | none => (norddrop_result.NORDDROP_RES_INVALID_STRING, false)
  | some sx =>
    match parse_uuid sx with
    | none => (norddrop_result.NORDDROP_RES_BAD_INPUT, false)
    | some u =>
      match op u with
      | Panicky.panicked => (norddrop_result.NORDDROP_RES_ERROR, true)
      | Panicky.ok r => (r, true)

/-- `norddrop_cancel_file` (ffi/mod.rs lines 211-254): null checks on `xfid`
then `fid`, the two parses, then `dev.cancel_file` followed by
`NORDDROP_RES_OK`. -/
def norddrop_cancel_file (parse_uuid : String → Option Uuid)
    (parse_fid : String → Option String)
    (op : Uuid → String → Panicky Unit) (xfid fid : CStrPtr) : norddrop_result × Bool :=
  match xfid with
  | none => (norddrop_result.NORDDROP_RES_INVALID_STRING, false)
  | some sx =>
    match fid with
    | none => (norddrop_result.NORDDROP_RES_INVALID_STRING, false)
    | some sf =>
      match parse_uuid sx with
      | none => (norddrop_result.NORDDROP_RES_BAD_INPUT, false)
      | some u =>
        match parse_fid sf with
        | none => (norddrop_result.NORDDROP_RES_BAD_INPUT, false)
        | some f =>
          match op u f with
          | Panicky.panicked => (norddrop_result.NORDDROP_RES_ERROR, true)
          | Panicky.ok _ => (norddrop_result.NORDDROP_RES_OK, true)

/-- `norddrop_reject_file` (ffi/mod.rs lines 263-303): the `xfid` block (null
check, then parse with `BAD_INPUT`) comes before the `fid` null check; then
`dev.reject_file` whose `Err` is returned as its `norddrop_result`. -/
def norddrop_reject_file (parse_uuid : String → Option Uuid)
    (op : Uuid → String → Panicky (Except norddrop_result Unit))
    (xfid fid : CStrPtr) : norddrop_result × Bool :=
  match xfid with
  | none => (norddrop_result.NORDDROP_RES_INVALID_STRING, false)
  | some sx =>
    match parse_uuid sx with
    | none => (norddrop_result.NORDDROP_RES_BAD_INPUT, false)
    | some u =>
      match fid with
      | none => (norddrop_result.NORDDROP_RES_INVALID_STRING, false)
      | some sf =>
        match op u sf with
        | Panicky.panicked => (norddrop_result.NORDDROP_RES_ERROR, true)
        | Panicky.ok (Except.ok _) => (norddrop_result.NORDDROP_RES_OK, true)
        | Panicky.ok (Except.error e) => (e, true)

/-- `norddrop_start` (ffi/mod.rs lines 334-366): null checks on `listen_addr`
then `config`, then `dev.start`. -/
def norddrop_start (op : String → String → Panicky norddrop_result)
    (listen_addr config : CStrPtr) : norddrop_result × Bool :=
  match listen_addr with
  | none => (norddrop_result.NORDDROP_RES_INVALID_STRING, false)
  | some a =>
    match config with
    | none => (norddrop_result.NORDDROP_RES_INVALID_STRING, false)
    | some c =>
      match op a c with
      | Panicky.panicked => (norddrop_result.NORDDROP_RES_ERROR, true)
      | Panicky.ok r => (r, true)

/-- `norddrop_purge_transfers` (ffi/mod.rs lines 392-415): lock, null check on
`txids`, then `dev.purge_transfers`. -/
def norddrop_purge_transfers (op : String → Panicky norddrop_result)
    (txids : CStrPtr) : norddrop_result × Bool :=
  match txids with
  | none => (norddrop_result.NORDDROP_RES_INVALID_STRING, false)
  | some t =>
    match op t with
    | Panicky.panicked => (norddrop_result.NORDDROP_RES_ERROR, true)
    | Panicky.ok r => (r, true)

/-- `norddrop_stop` (ffi/mod.rs lines 373-384): `catch_unwind` around
`dev.stop()`; a caught panic becomes `NORDDROP_RES_ERROR`. -/
def norddrop_stop (op : Panicky norddrop_result) : norddrop_result × Bool :=
  match op with
  | Panicky.panicked => (norddrop_result.NORDDROP_RES_ERROR, true)
  | Panicky.ok r => (r, true)

/-- `norddrop_destroy` (ffi/mod.rs lines 104-108): if `dev` is non-null, drop
the boxed instance.  There is no `catch_unwind` here, so the outcome of the
drop (`drop_op`), including a panic, propagates to the C caller unchanged. -/
def norddrop_destroy (dev_null : Bool) (drop_op : Panicky Unit) : Panicky Unit :=
  if dev_null then Panicky.ok () else drop_op

end Norddrop

/- ---------------------------------------------------------------------
   Helper lemmas about the v5 handler loop
--------------------------------------------------------------------- -/

namespace V5

theorem on_done_tasks_false (s : LoopState) (f : FileId) :
    (on_done s f).state.tasks f = false := by
  simp only [on_done]
  split_ifs <;> simp_all [upd]

theorem on_done_done_true (s : LoopState) (f : FileId) :
    (on_done s f).state.done f = true := by
  simp only [on_done]
  split_ifs <;> simp [upd]

theorem on_done_events_no_task (s : LoopState) (f : FileId)
    (h1 : s.tasks f = false) (h2 : s.done f = true) : (on_done s f).events = [] := by
  simp only [on_done]
  split_ifs <;> simp_all [upd]

end V5

/- ---------------------------------------------------------------------
   Claim theorems
--------------------------------------------------------------------- -/

/-- C1 counterexample: from a fresh v5 client loop, the inbound sequence
`Reject(0)` then `Done(0)` delivers two terminal events for file 0 to the
application: `FileUploadRejected` through the sink, then `FileUploadSuccess`
sent directly on `event_tx` by `on_done`'s else branch (v5.rs lines 167-175),
which consults only the loop-local `done` set and ignores the manager latch
and the sink.  This refutes the claim's blanket guarantee of at most one
terminal event per file for every sequence of inbound server messages. -/
theorem c1_counterexample :
    V5.runEvents V5.initialLoop
        [(V5.ServerMsg.Reject 0, ⟨false, true, true⟩), (V5.ServerMsg.Done 0, ⟨false, true, true⟩)] =
      [V5.Event.FileUploadRejected 0 true, V5.Event.FileUploadSuccess 0] ∧
    V5.terminalCount
      (V5.runEvents V5.initialLoop
        [(V5.ServerMsg.Reject 0, ⟨false, true, true⟩), (V5.ServerMsg.Done 0, ⟨false, true, true⟩)]) 0 = 2 :=
  ⟨rfl, rfl⟩

/-- C1 (amended): in the v5 client loop, a second `Done` for a file with no
intervening `Start` emits nothing — in particular no second upload-success
event (the `done` set latches it) — and a `Reject` emits a rejected event
exactly when the transfer manager's terminal-state latch still returns
`Ok(Some(sink))` and the file's sink has not yet emitted a terminal event;
when the latch returns `Ok(None)` nothing is emitted.  The blanket
at-most-one-terminal-event-per-file guarantee of the original claim does not
hold: a `Done` arriving after a `Reject` (or `Cancel`, or file-level `Error`)
for a file with no live task emits an additional upload-success event. -/
theorem c1_terminal_latches (s : V5.LoopState) (f : FileId) (o1 o2 om : V5.Oracle) :
    (V5.step (V5.step s (V5.ServerMsg.Done f) o1).state (V5.ServerMsg.Done f) o2).events = [] ∧
    (V5.step s (V5.ServerMsg.Reject f) om).events =
      (if s.mgr f = none ∧ s.sink f = false then [V5.Event.FileUploadRejected f true]
       else []) := by
  constructor
  · exact V5.on_done_events_no_task _ f (V5.on_done_tasks_false s f) (V5.on_done_done_true s f)
  · show (V5.on_reject s f om).events = _
    simp only [V5.on_reject, V5.outgoing_terminal_recv, V5.sinkEmit]
    rcases hmf : s.mgr f with _ | ts
    · by_cases hsk : s.sink f = true <;> simp [hmf, hsk]
    · simp [hmf]

/-- C2 counterexample: the claimed reply does not hold in every reachable
state.  Run `Start(0)` (the task becomes live), then `ReqChsum(0)` whose
checksum computation fails: the spawned job's failure path calls
`outgoing_failure_post` (v5.rs lines 216-225), recording a manager-terminal
state while the loop's task entry stays live and unfinished.  The next
`Start(0)` now fails `outgoing_ensure_file_not_terminated` first
(v5.rs lines 251-254) and replies with that error — a different message from
`Transfer already in progress` — even though a live unfinished task exists. -/
theorem c2_counterexample :
    (V5.run V5.initialLoop
        [(V5.ServerMsg.Start 0 0, ⟨false, true, true⟩),
         (V5.ServerMsg.ReqChsum 0 64, ⟨false, true, false⟩)]).tasks 0 = true ∧
    (V5.step (V5.run V5.initialLoop
        [(V5.ServerMsg.Start 0 0, ⟨false, true, true⟩),
         (V5.ServerMsg.ReqChsum 0 64, ⟨false, true, false⟩)])
      (V5.ServerMsg.Start 0 0) ⟨false, true, true⟩).sent =
      [V5.ClientMsg.Error (some 0) ("file is already terminated")] ∧
    [V5.ClientMsg.Error (some 0) ("file is already terminated")] ≠
      [V5.ClientMsg.Error (some 0) ("Transfer already in progress")] :=
  ⟨rfl, rfl, by decide⟩

/-- C2 (amended): in the v5 client loop, when `Start` arrives for a file
whose upload task exists and is not yet finished, the live task is left
untouched: the state is exactly as before, no job is aborted and no event is
emitted — so a new task is started only when no task exists or the existing
one has finished.  When additionally the transfer manager holds no terminal
state for the file (no checksum-failure post has occurred), the reply on the
socket is exactly `Error{file, "Transfer already in progress"}`; when the
manager holds a terminal state, the handler instead replies with the error
from `outgoing_ensure_file_not_terminated` (see the counterexample). -/
theorem c2_start_already_in_progress (s : V5.LoopState) (f : FileId) (off : Nat)
    (o : V5.Oracle) (htask : s.tasks f = true) (hfin : o.job_finished = false) :
    (V5.step s (V5.ServerMsg.Start f off) o).state = s ∧
    (V5.step s (V5.ServerMsg.Start f off) o).events = [] ∧
    (V5.step s (V5.ServerMsg.Start f off) o).aborted = [] ∧
    (s.mgr f = none →
      V5.step s (V5.ServerMsg.Start f off) o =
        ⟨s, [], [V5.ClientMsg.Error (some f) ("Transfer already in progress")], []⟩) := by
  rcases hmf : s.mgr f with _ | ts
  · have hstep : V5.step s (V5.ServerMsg.Start f off) o =
        ⟨s, [], [V5.ClientMsg.Error (some f) ("Transfer already in progress")], []⟩ := by
      show V5.on_start s f off o = _
      simp [V5.on_start, V5.outgoing_ensure_not_terminated, hmf, htask, hfin]
    rw [hstep]
    exact ⟨rfl, rfl, rfl, fun _ => rfl⟩
  · have hstep : V5.step s (V5.ServerMsg.Start f off) o =
        ⟨s, [], [V5.ClientMsg.Error (some f) ("file is already terminated")], []⟩ := by
      show V5.on_start s f off o = _
      simp [V5.on_start, V5.outgoing_ensure_not_terminated, hmf]
    rw [hstep]
    refine ⟨rfl, rfl, rfl, fun hc => ?_⟩
    simp [hmf] at hc

/-- Witness for C2: after a successful `Start` for file 0 the task is live
and unfinished and the manager latch is clear, so a second `Start` leaves
everything untouched and is answered with the in-progress error. -/
theorem c2_start_already_in_progress_witness :
    (V5.step (V5.run V5.initialLoop [(V5.ServerMsg.Start 0 0, ⟨false, true, true⟩)])
        (V5.ServerMsg.Start 0 0) ⟨false, true, true⟩).state =
      V5.run V5.initialLoop [(V5.ServerMsg.Start 0 0, ⟨false, true, true⟩)] ∧
    (V5.step (V5.run V5.initialLoop [(V5.ServerMsg.Start 0 0, ⟨false, true, true⟩)])
        (V5.ServerMsg.Start 0 0) ⟨false, true, true⟩).events = [] ∧
    (V5.step (V5.run V5.initialLoop [(V5.ServerMsg.Start 0 0, ⟨false, true, true⟩)])
        (V5.ServerMsg.Start 0 0) ⟨false, true, true⟩).aborted = [] ∧
    ((V5.run V5.initialLoop [(V5.ServerMsg.Start 0 0, ⟨false, true, true⟩)]).mgr 0 = none →
      V5.step (V5.run V5.initialLoop [(V5.ServerMsg.Start 0 0, ⟨false, true, true⟩)])
          (V5.ServerMsg.Start 0 0) ⟨false, true, true⟩ =
        ⟨V5.run V5.initialLoop [(V5.ServerMsg.Start 0 0, ⟨false, true, true⟩)], [],
          [V5.ClientMsg.Error (some 0) ("Transfer already in progress")], []⟩) :=
  c2_start_already_in_progress
    (V5.run V5.initialLoop [(V5.ServerMsg.Start 0 0, ⟨false, true, true⟩)]) 0 0
    ⟨false, true, true⟩ rfl rfl

/-- C3: once the v5 client loop has processed a `Done` for a file (which
removes its task from the task map), a subsequent `Cancel` for that file is
dropped: it emits no cancelled event, aborts nothing, sends nothing and
leaves the state unchanged, because `on_cancel` acts only when a live task
entry is present for the file. -/
theorem c3_cancel_after_done (s : V5.LoopState) (f : FileId) (o1 o2 : V5.Oracle) :
    V5.step (V5.step s (V5.ServerMsg.Done f) o1).state (V5.ServerMsg.Cancel f) o2 =
      ⟨(V5.step s (V5.ServerMsg.Done f) o1).state, [], [], []⟩ := by
  have h : (V5.step s (V5.ServerMsg.Done f) o1).state.tasks f = false :=
    V5.on_done_tasks_false s f
  show V5.on_cancel (V5.step s (V5.ServerMsg.Done f) o1).state f true o2 = _
  simp [V5.on_cancel, h]

/-- C4 counterexample: with a live upload task for file 0, processing
`Error{file: None}` in the v5 client loop changes nothing at all — no state
change, no event, no message, no abort — contradicting the claim that the
transfer reaches a failed terminal state rather than merely logging and
continuing with all file tasks untouched. -/
theorem c4_counterexample :
    V5.step (V5.run V5.initialLoop [(V5.ServerMsg.Start 0 0, ⟨false, true, true⟩)])
        (V5.ServerMsg.Error none ("internal error")) ⟨false, true, true⟩ =
      ⟨V5.run V5.initialLoop [(V5.ServerMsg.Start 0 0, ⟨false, true, true⟩)], [], [], []⟩ ∧
    (V5.run V5.initialLoop [(V5.ServerMsg.Start 0 0, ⟨false, true, true⟩)]).tasks 0 = true :=
  ⟨rfl, rfl⟩

/-- C4 (amended): receiving `Error{file: None, msg}` from the peer is only
logged by both client handlers: in v5 the loop state, the events, the socket
and the task jobs are all untouched, and in v2 `on_error` with `file = None`
likewise removes no task, emits nothing and aborts nothing.  The whole
transfer is not failed by this message. -/
theorem c4_error_none_only_logs (s : V5.LoopState) (msg : String) (o : V5.Oracle)
    (tasks : FileId → Bool) (fin : Bool) :
    V5.step s (V5.ServerMsg.Error none msg) o = ⟨s, [], [], []⟩ ∧
    V2.on_error tasks none fin = (tasks, [], []) :=
  ⟨rfl, rfl⟩

/-- C5: in both the v5 and the v2 client uploaders, when the outbound queue
is closed at the moment a chunk is sent, `Uploader::chunk` returns
`Error::Canceled` (not a failure kind), queues nothing, and emits no failure
event on that path. -/
theorem c5_chunk_closed_queue (f : FileId) (data : List Nat) :
    Uploader.chunk_v5 false f data = (Except.error CrateError.Canceled, [], []) ∧
    Uploader.chunk_v2 false f data = (Except.error CrateError.Canceled, [], []) :=
  ⟨rfl, rfl⟩

/-- C6: in both client loops the per-iteration receive timeout equals
`transfer_idle_lifetime` minus the time elapsed since the last received
frame, as a saturating (non-negative) difference; the v2 loop computes the
same value when its `PING` parameter is true (as it is in the client
protocol). -/
theorem c6_recv_timeout (cfg : DropConfig) (e : Duration) :
    recv_timeout_v5 cfg e = some (cfg.transfer_idle_lifetime - e) ∧
    recv_timeout_v2 true cfg e = some (cfg.transfer_idle_lifetime - e) :=
  ⟨rfl, rfl⟩

/-- C7: for every configuration, `DropConfig::ping_interval()` returns half
the idle lifetime, `transfer_idle_lifetime / 2`. -/
theorem c7_ping_interval (c : DropConfig) :
    c.ping_interval = c.transfer_idle_lifetime / 2 := rfl

/-- C8: the default configuration constants match the spec —
`dir_depth_limit = 5`, `transfer_file_limit = 1000`,
`connection_max_retry_interval = 10 s`, `transfer_idle_lifetime = 60 s`,
`max_uploads_in_flight = 4` — and when the embedding configuration omits
`connection_retries`, the core configuration receives
`connection_retries = 5`. -/
theorem c8_config_defaults :
    DropConfig.default.dir_depth_limit = 5 ∧
    DropConfig.default.transfer_file_limit = 1000 ∧
    DropConfig.default.connection_max_retry_interval = Duration.fromSecs 10 ∧
    DropConfig.default.transfer_idle_lifetime = Duration.fromSecs 60 ∧
    DropConfig.default.max_uploads_in_flight = 4 ∧
    ∀ (d t : Nat) (mep : String) (mp : Bool) (sp : String) (ce : Option Nat),
      (Norddrop.Config.toCore ⟨d, t, mep, mp, sp, ce, none⟩).connection_retries = 5 :=
  ⟨rfl, rfl, rfl, rfl, rfl, fun _ _ _ _ _ _ => rfl⟩

open Norddrop

/-- C9 counterexample: `norddrop_destroy` is an exported C-FFI entry point
whose body has no `panic::catch_unwind` (ffi/mod.rs lines 104-108), so a
panic raised while dropping the instance propagates — unwinds — to the C
caller instead of being converted, refuting the claim that every exported
entry point wraps its body in `catch_unwind`. -/
theorem c9_counterexample :
    norddrop_destroy false Panicky.panicked = (Panicky.panicked : Panicky Unit) := rfl

/-- C9 (amended): the exported C-FFI entry points other than
`norddrop_destroy` wrap their bodies in `panic::catch_unwind`, so a panic
inside the library is converted to `NORDDROP_RES_ERROR` for result-returning
functions and to the null pointer for the string-returning
`norddrop_new_transfer`, never unwinding across the C boundary;
`norddrop_destroy` performs the drop without a catch. -/
theorem c9_catch_unwind (p d x f t : String) :
    norddrop_new_transfer (fun _ _ => Panicky.panicked) (some p) (some d) = (none, true) ∧
    norddrop_download (fun s => some s) (fun s => some s) (fun _ _ _ => Panicky.panicked)
      (some x) (some f) (some t) = (norddrop_result.NORDDROP_RES_ERROR, true) ∧
    norddrop_stop (Panicky.panicked : Panicky norddrop_result) =
      (norddrop_result.NORDDROP_RES_ERROR, true) :=
  ⟨rfl, rfl, rfl⟩

/-- C10 counterexample: in `norddrop_reject_file` (ffi/mod.rs lines 269-286)
the `xfid` block — null check, then parse — precedes the `fid` null check,
so with an unparseable `xfid` and a null `fid` the function returns
`NORDDROP_RES_BAD_INPUT`, not `NORDDROP_RES_INVALID_STRING` as the claim
promises for any null C-string argument.  (The device operation is still not
invoked.) -/
theorem c10_counterexample :
    norddrop_reject_file (fun _ => none) (fun _ _ => Panicky.ok (Except.ok ()))
        (some ("not-a-uuid")) none =
      (norddrop_result.NORDDROP_RES_BAD_INPUT, false) ∧
    norddrop_result.NORDDROP_RES_BAD_INPUT ≠
      norddrop_result.NORDDROP_RES_INVALID_STRING :=
  ⟨rfl, by decide⟩

/-- C10 (amended): every modelled C-FFI function taking C-string arguments
returns before invoking the underlying device operation when any of those
arguments is the null pointer, so the device state is unchanged; the result
is `NORDDROP_RES_INVALID_STRING` (or the null pointer, for the
string-returning `norddrop_new_transfer`) in every case except one:
in `norddrop_reject_file` the `xfid` argument is parsed before the `fid`
null check, so a null `fid` yields `NORDDROP_RES_INVALID_STRING` when `xfid`
parses and `NORDDROP_RES_BAD_INPUT` when it does not. -/
theorem c10_null_string_args
    (opNT : String → String → Panicky (Except norddrop_result String))
    (pU : String → Option Uuid) (pF : String → Option String)
    (opDL : Uuid → String → String → Panicky norddrop_result)
    (opCT : Uuid → Panicky norddrop_result)
    (opCF : Uuid → String → Panicky Unit)
    (opRJ : Uuid → String → Panicky (Except norddrop_result Unit))
    (opST : String → String → Panicky norddrop_result)
    (opPG : String → Panicky norddrop_result)
    (a b : String) :
    norddrop_new_transfer opNT none (some b) = (none, false) ∧
    norddrop_new_transfer opNT (some a) none = (none, false) ∧
    norddrop_download pU pF opDL none (some a) (some b) =
      (norddrop_result.NORDDROP_RES_INVALID_STRING, false) ∧
    norddrop_download pU pF opDL (some a) none (some b) =
      (norddrop_result.NORDDROP_RES_INVALID_STRING, false) ∧
    norddrop_download pU pF opDL (some a) (some b) none =
      (norddrop_result.NORDDROP_RES_INVALID_STRING, false) ∧
    norddrop_cancel_transfer pU opCT none =
      (norddrop_result.NORDDROP_RES_INVALID_STRING, false) ∧
    norddrop_cancel_file pU pF opCF none (some a) =
      (norddrop_result.NORDDROP_RES_INVALID_STRING, false) ∧
    norddrop_cancel_file pU pF opCF (some a) none =
      (norddrop_result.NORDDROP_RES_INVALID_STRING, false) ∧
    norddrop_reject_file pU opRJ none (some a) =
      (norddrop_result.NORDDROP_RES_INVALID_STRING, false) ∧
    norddrop_reject_file pU opRJ (some a) none =
      ((match pU a with
        | none => norddrop_result.NORDDROP_RES_BAD_INPUT
        | some _ => norddrop_result.NORDDROP_RES_INVALID_STRING), false) ∧
    norddrop_start opST none (some a) =
      (norddrop_result.NORDDROP_RES_INVALID_STRING, false) ∧
    norddrop_start opST (some a) none =
      (norddrop_result.NORDDROP_RES_INVALID_STRING, false) ∧
    norddrop_purge_transfers opPG none =
      (norddrop_result.NORDDROP_RES_INVALID_STRING, false) := by
  refine ⟨rfl, rfl, rfl, rfl, rfl, rfl, rfl, rfl, rfl, ?_, rfl, rfl, rfl⟩
  rcases h : pU a with _ | u <;> simp [norddrop_reject_file, h]

end Libdrop
